import Mathlib

/-!
Verification development for the wdl_input_tools batch-submission layer.

The definitions below are shallow embeddings of the Python sources:
`wdl_input_tools/contants.py`, `wdl_input_tools/core.py`,
`wdl_input_tools/cromwell.py`, `wdl_input_tools/cli.py`,
`submit_batch.py` and `get_batch_status.py`.  Pure Python functions become
Lean functions; remote (Cromwell REST) calls are abstracted by an
environment record whose operations return `Except`, mirroring the fact
that every such call in the source either returns a value or raises.
Dictionaries are modelled as association lists (first binding wins, as in
Python dicts where keys are unique).
-/

set_option maxHeartbeats 1000000

/-! ### Constants (wdl_input_tools/contants.py) -/

def CROMWELL_BATCH_LABEL : String := "cromwell-batch-label"

def CROMWELL_SAMPLE_LABEL : String := "cromwell-sample-label"

def CROMWELL_BATCH_SAMPLE_LABEL : String := "cromwell-batch-sample-label"

def CROMWELL_UNIQUE_LABEL : String := "cromwell-unique-label"

def CROMWELL_START_FIELD : String := "start"

def CROMWELL_END_FIELD : String := "end"

def CROMWELL_SUBMIT_FIELD : String := "submission"

def CROMWELL_WF_ID_FIELD : String := "cromwell-workflow-id"

def CROMWELL_STATUS_FIELD : String := "status"

def CROMWELL_RUNNING_STATUS : String := "Running"

def CROMWELL_FAILED_STATUS : String := "Failed"

def CROMWELL_ABORTED_STATUS : String := "Aborted"

def CROMWELL_ABORTING_STATUS : String := "Aborting"

def CROMWELL_SUCCESS_STATUS : String := "Succeeded"

def CROMWELL_SUBMITTED_STATUS : String := "Submitted"

def CROMWELL_LABEL_FIELD : String := "labels"

def CROMWELL_BATCH_STATUS_FIELD : String := "cromwell-batch-status"

def CROMWELL_BATCH_STATUS_INCLUDE_FLAG : String := "include"

def CROMWELL_BATCH_STATUS_EXCLUDE_FLAG : String := "exclude"

def CROMWELL_WF_NAME_FIELD : String := "workflowName"

def SUPERCEDED_WF_FIELD : String := "SupercededWFs"

def REPORT_INFO_FIELD : String := "Info"

def REQUIRED_WF_LABELS : List String :=
  [CROMWELL_UNIQUE_LABEL,
   CROMWELL_BATCH_STATUS_FIELD,
   CROMWELL_BATCH_LABEL,
   CROMWELL_BATCH_SAMPLE_LABEL,
   CROMWELL_SAMPLE_LABEL]

def REPORT_COL_ORDER : List String :=
  [CROMWELL_WF_ID_FIELD,
   CROMWELL_UNIQUE_LABEL,
   CROMWELL_SAMPLE_LABEL,
   CROMWELL_BATCH_LABEL,
   CROMWELL_BATCH_SAMPLE_LABEL,
   CROMWELL_BATCH_STATUS_FIELD,
   SUPERCEDED_WF_FIELD,
   REPORT_INFO_FIELD]

def STATUS_COL_ORDER : List String :=
  [CROMWELL_WF_ID_FIELD,
   CROMWELL_BATCH_STATUS_FIELD,
   CROMWELL_SAMPLE_LABEL,
   CROMWELL_UNIQUE_LABEL,
   CROMWELL_BATCH_LABEL,
   CROMWELL_BATCH_SAMPLE_LABEL,
   CROMWELL_STATUS_FIELD,
   CROMWELL_SUBMIT_FIELD,
   CROMWELL_START_FIELD,
   CROMWELL_END_FIELD,
   CROMWELL_WF_NAME_FIELD]

/-! ### Dictionaries as association lists -/

/-- Python dictionary lookup `d.get(k)`: value of the first binding of `k`. -/
def lookupValue (d : List (String × String)) (k : String) : Option String :=
  (d.find? (fun kv => kv.1 == k)).map (fun kv => kv.2)

/-- Python membership test `k in d`. -/
def hasKey (d : List (String × String)) (k : String) : Bool :=
  (lookupValue d k).isSome

/-! ### Conflict resolver (submit_batch.py, resolve_batch_conflict)

The Python function first fetches the live status of the conflicting
workflow over the network; the status string is passed in here and the
remainder of the function is pure.  Returns
`(can_overwrite_batch_conflict, abort_batch_conflict)`. -/

def resolve_batch_conflict (batch_conflict_status : String)
    (batch_conflict_action : String) : Bool × Bool :=
  let batch_conflict_alive :=
    !([CROMWELL_FAILED_STATUS,
       CROMWELL_SUCCESS_STATUS,
       CROMWELL_ABORTED_STATUS,
       CROMWELL_ABORTING_STATUS].contains batch_conflict_status)
  let can_overwrite_batch_conflict :=
    if batch_conflict_status == CROMWELL_SUCCESS_STATUS &&
        batch_conflict_action != "rerun-all" then
      false
    else if batch_conflict_alive && batch_conflict_action == "rerun-failed" then
      false
    else
      true
  let abort_batch_conflict := batch_conflict_alive && can_overwrite_batch_conflict
  (can_overwrite_batch_conflict, abort_batch_conflict)

/-- The three values admitted for `--batch-conflict-action` by the
argparse `choices` list in `submit_batch.get_argparser`. -/
def BATCH_CONFLICT_ACTIONS : List String :=
  ["rerun-all", "rerun-unless-success", "rerun-failed"]

/-- C1: the conflict resolver realises the policy table: prior `Succeeded`
with policy `rerun-failed` cannot be overwritten; `Succeeded` with
`rerun-all` yields `(can_overwrite, must_abort) = (true, false)`; `Running`
with `rerun-unless-success` yields `(true, true)`; and a terminal `Failed`
or `Aborted` prior job yields `(true, false)` under all three policies. -/
theorem resolve_batch_conflict_policy_table :
    (resolve_batch_conflict CROMWELL_SUCCESS_STATUS "rerun-failed").1 = false ∧
    resolve_batch_conflict CROMWELL_SUCCESS_STATUS "rerun-all" = (true, false) ∧
    resolve_batch_conflict CROMWELL_RUNNING_STATUS "rerun-unless-success" = (true, true) ∧
    (BATCH_CONFLICT_ACTIONS.all
      (fun a => resolve_batch_conflict CROMWELL_FAILED_STATUS a == (true, false) &&
                resolve_batch_conflict CROMWELL_ABORTED_STATUS a == (true, false))) = true := by
  decide

/-! ### Label-set validation (core.py, validate_wf_labels)

The Python loop walks `REQUIRED_WF_LABELS` in order and raises `IOError`
at the first label absent from the workflow label dict.  The error
message for a non-unique label interpolates the value of the unique
label; that branch is only reached when the unique label is present
(it is checked first), so a total `getD ""` stands in for the Python
dict access. -/

def missingLabelMsg (wf_labels : List (String × String)) (req_label : String) : String :=
  if req_label != CROMWELL_UNIQUE_LABEL then
    "Workflow " ++ ((lookupValue wf_labels CROMWELL_UNIQUE_LABEL).getD "") ++
      " missing required label: " ++ req_label
  else
    "One or more workflow label dicts missing required label: " ++ req_label

def validateLabelLoop (wf_labels : List (String × String)) :
    List String → Except String Unit
  | [] => Except.ok ()
  | req_label :: rest =>
    if hasKey wf_labels req_label then
      validateLabelLoop wf_labels rest
    else
      Except.error (missingLabelMsg wf_labels req_label)

def validate_wf_labels (wf_labels : List (String × String)) : Except String Unit :=
  validateLabelLoop wf_labels REQUIRED_WF_LABELS

/-- A complete label set, used in examples below. -/
def fullLabelSet : List (String × String) :=
  [(CROMWELL_BATCH_LABEL, "B1"),
   (CROMWELL_SAMPLE_LABEL, "S1"),
   (CROMWELL_BATCH_SAMPLE_LABEL, "B1_S1"),
   (CROMWELL_BATCH_STATUS_FIELD, "include"),
   (CROMWELL_UNIQUE_LABEL, "wf_B1_S1_abc1234")]

/-- C5 counterexample: the claim is false on the code.  A label set missing
only `unique_label` is rejected (not tolerated), and a label set missing
both `batch_label` and `sample_label` produces an error naming only
`batch_label` (the first missing tag in the fixed order), not every absent
tag. -/
theorem validate_wf_labels_counterexample :
    validate_wf_labels
      [(CROMWELL_BATCH_STATUS_FIELD, "include"),
       (CROMWELL_BATCH_LABEL, "B1"),
       (CROMWELL_BATCH_SAMPLE_LABEL, "B1_S1"),
       (CROMWELL_SAMPLE_LABEL, "S1")] =
      Except.error
        "One or more workflow label dicts missing required label: cromwell-unique-label" ∧
    validate_wf_labels
      [(CROMWELL_UNIQUE_LABEL, "u1"),
       (CROMWELL_BATCH_STATUS_FIELD, "include"),
       (CROMWELL_BATCH_SAMPLE_LABEL, "B1_S1")] =
      Except.error "Workflow u1 missing required label: cromwell-batch-label" := by
  constructor <;> rfl

/-- C5 amended: validation walks the required labels in the fixed order
`[unique_label, batch_status_label, batch_label, batch_sample_label,
sample_label]` and fails on the FIRST missing one, naming only that tag
(absence of `unique_label` alone is an error too); it succeeds exactly
when all five required tags are present. -/
theorem validate_wf_labels_fail_fast (wf_labels : List (String × String)) :
    (validate_wf_labels wf_labels =
      match REQUIRED_WF_LABELS.find? (fun r => !hasKey wf_labels r) with
      | none => Except.ok ()
      | some req => Except.error (missingLabelMsg wf_labels req)) ∧
    (validate_wf_labels wf_labels = Except.ok () ↔
      REQUIRED_WF_LABELS.all (hasKey wf_labels) = true) := by
  by_cases h1 : hasKey wf_labels CROMWELL_UNIQUE_LABEL <;>
    by_cases h2 : hasKey wf_labels CROMWELL_BATCH_STATUS_FIELD <;>
      by_cases h3 : hasKey wf_labels CROMWELL_BATCH_LABEL <;>
        by_cases h4 : hasKey wf_labels CROMWELL_BATCH_SAMPLE_LABEL <;>
          by_cases h5 : hasKey wf_labels CROMWELL_SAMPLE_LABEL <;>
            simp [validate_wf_labels, validateLabelLoop, REQUIRED_WF_LABELS,
              List.find?, h1, h2, h3, h4, h5]

/-! ### Cromwell label syntax (cromwell.py is_valid_label; cli.py batch_type_arg)

`is_valid_label` runs `re.match("^[a-zA-Z0-9]+[a-zA-Z0-9_-]*$", lab)`.
In Python, an un-flagged `$` matches at the end of the string or just
before one trailing newline, so the accepted language is the core regex
language plus the same words with a single trailing newline. -/

def isAsciiAlnumChar (c : Char) : Bool :=
  (97 ≤ c.toNat && c.toNat ≤ 122) ||
  (65 ≤ c.toNat && c.toNat ≤ 90) ||
  (48 ≤ c.toNat && c.toNat ≤ 57)

def isLabelTailChar (c : Char) : Bool :=
  isAsciiAlnumChar c || c == '_' || c == '-'

/-- Full match of `[a-zA-Z0-9]+[a-zA-Z0-9_-]*` against a whole string. -/
def matchesLabelRegexCore (s : String) : Bool :=
  match s.data with
  | [] => false
  | c :: rest => isAsciiAlnumChar c && rest.all isLabelTailChar

def is_valid_label (lab : String) : Bool :=
  matchesLabelRegexCore lab ||
  (lab.data.getLast? == some '\n' && matchesLabelRegexCore (String.mk lab.data.dropLast))

def CROMWELL_LABEL_ARG_ERR : String :=
  "Cromwell labels can only contain alphanumeric characters, hyphens (-), and underscores(_)"

/-- cli.py `batch_type_arg`: argparse type-check applied to `--batch-name`
while the command line is parsed, i.e. before any remote call is made. -/
def batch_type_arg (arg_string : String) : Except String String :=
  if !is_valid_label arg_string then
    Except.error CROMWELL_LABEL_ARG_ERR
  else
    Except.ok arg_string

/-- core.py `get_wf_labels`: builds the label dict for one sample.  The
random 7-character suffix produced by `helpers.get_unique_id` is passed
in as `unique_suffix`.  Note that neither `sample_name` nor `batch_name`
is checked against the label syntax here. -/
def get_wf_labels (sample_name batch_name workflow_name unique_suffix : String) :
    List (String × String) :=
  [(CROMWELL_BATCH_LABEL, batch_name),
   (CROMWELL_SAMPLE_LABEL, sample_name),
   (CROMWELL_BATCH_SAMPLE_LABEL, batch_name ++ "_" ++ sample_name),
   (CROMWELL_BATCH_STATUS_FIELD, CROMWELL_BATCH_STATUS_INCLUDE_FLAG),
   (CROMWELL_UNIQUE_LABEL,
     workflow_name ++ "_" ++ batch_name ++ "_" ++ sample_name ++ "_" ++ unique_suffix)]

/-- Written from the SPEC wording only: label values are restricted to
`[A-Za-z0-9_-]+` beginning with an alphanumeric character. -/
def specLabelRestriction (s : String) : Bool :=
  !s.data.isEmpty &&
  s.data.all isLabelTailChar &&
  (match s.data with
   | [] => false
   | c :: _ => isAsciiAlnumChar c)

/-- C8 counterexample: `is_valid_label` accepts the string made of
`a`, `b`, `c` and a trailing newline, which violates the restriction
stated by the spec; moreover a sample name violating the restriction
flows into `get_wf_labels` without any validation failure. -/
theorem is_valid_label_counterexample :
    is_valid_label "abc\n" = true ∧
    specLabelRestriction "abc\n" = false ∧
    specLabelRestriction "bad sample" = false ∧
    lookupValue (get_wf_labels "bad sample" "B1" "wf" "abc1234")
      CROMWELL_SAMPLE_LABEL = some "bad sample" := by
  refine ⟨by decide, by decide, by decide, by decide⟩

/-- C8 amended: `is_valid_label` accepts exactly the strings matching the
spec restriction, plus the same strings extended with one trailing
newline (an artifact of the un-anchored Python `$`); `batch_type_arg`
rejects any other batch name while the command line is parsed (hence
before any remote call); sample names are not themselves validated —
`get_wf_labels` records any sample string unchanged. -/
theorem is_valid_label_characterization
    (s sample batch wf suffix : String) :
    (is_valid_label s = true ↔
      (specLabelRestriction s = true ∨
        (s.data.getLast? = some '\n' ∧
          specLabelRestriction (String.mk s.data.dropLast) = true))) ∧
    (batch_type_arg s = Except.ok s ↔ is_valid_label s = true) ∧
    (is_valid_label s = false → batch_type_arg s = Except.error CROMWELL_LABEL_ARG_ERR) ∧
    lookupValue (get_wf_labels sample batch wf suffix) CROMWELL_SAMPLE_LABEL
      = some sample := by
  have hcore : ∀ t : String, matchesLabelRegexCore t = specLabelRestriction t := by
    intro t
    cases h : t.data with
    | nil => simp [matchesLabelRegexCore, specLabelRestriction, h]
    | cons c rest =>
      simp only [matchesLabelRegexCore, specLabelRestriction, h, List.all_cons,
        List.isEmpty_cons, Bool.not_false, Bool.true_and]
      cases hc : isAsciiAlnumChar c with
      | false => simp [isLabelTailChar, hc]
      | true => simp [isLabelTailChar, hc, Bool.and_comm]
  refine ⟨?_, ?_, ?_, ?_⟩
  · simp [is_valid_label, hcore]
  · cases h : is_valid_label s <;> simp [batch_type_arg, h]
  · intro h; simp [batch_type_arg, h]
  · rfl

/-! ### Workflow queries (cromwell.py, query_workflows / get_batch_conflicts)

A query response entry is a JSON object with an `id` and, for sub-jobs
only, a `parentWorkflowId` key; presence of the key is modelled by the
option being `some`.  `query_workflows` keeps the ids of the entries that
carry no parent reference, mirroring the list comprehension
`[wf["id"] for wf in result if "parentWorkflowId" not in wf]`. -/

structure WfQueryResult where
  id : String
  parentWorkflowId : Option String
deriving Repr, DecidableEq

def query_workflows (results : List WfQueryResult) : List String :=
  results.filterMap
    (fun wf => if wf.parentWorkflowId == none then some wf.id else none)

/-- C9: the ids returned for a query are exactly those of the result
entries without a parent-workflow reference; every child/sub-job entry is
excluded. -/
theorem query_workflows_top_level_only (results : List WfQueryResult) (x : String) :
    x ∈ query_workflows results ↔
      ∃ wf ∈ results, wf.parentWorkflowId = none ∧ wf.id = x := by
  simp only [query_workflows, List.mem_filterMap]
  constructor
  · rintro ⟨wf, hmem, hf⟩
    cases hpw : wf.parentWorkflowId with
    | none =>
      refine ⟨wf, hmem, hpw, ?_⟩
      simpa [hpw] using hf
    | some p => simp [hpw] at hf
  · rintro ⟨wf, hmem, hnone, hid⟩
    exact ⟨wf, hmem, by simp [hnone, hid]⟩

/-! ### The remote job store and conflict discovery

A remote job carries a server-assigned id, a label dict and (for
sub-workflows) a parent reference.  The label-query semantics is the
part of the system that lives on the Cromwell server, outside this
repository. -/

structure RemoteJob where
  id : String
  labels : List (String × String)
  parentWorkflowId : Option String
deriving Repr, DecidableEq

/-- Modelled from the spec: the Remote Job Client contract (spec section
4.2) is that `query(label_filter)` returns the jobs whose label set is a
superset-match of the filter, the filter entries being implicitly ANDed;
the matching itself is performed by the Cromwell server, whose code is
not part of this repository. -/
def matchesLabelFilter (filter : List (String × String)) (job : RemoteJob) : Bool :=
  filter.all (fun kv => lookupValue job.labels kv.1 == some kv.2)

/-- The server response for a label query, fed to `query_workflows`. -/
def runLabelQuery (jobs : List RemoteJob) (filter : List (String × String)) :
    List WfQueryResult :=
  (jobs.filter (matchesLabelFilter filter)).map
    (fun job => { id := job.id, parentWorkflowId := job.parentWorkflowId })

/-- cromwell.py `get_batch_conflicts`: queries for workflows carrying the
same `batch_sample_label` AND `batch_status = include`, then keeps the
top-level ids via `query_workflows`. -/
def get_batch_conflicts (jobs : List RemoteJob) (batch_sample_label : String) :
    List String :=
  query_workflows (runLabelQuery jobs
    [(CROMWELL_BATCH_SAMPLE_LABEL, batch_sample_label),
     (CROMWELL_BATCH_STATUS_FIELD, CROMWELL_BATCH_STATUS_INCLUDE_FLAG)])

/-! ### Batch submission driver (submit_batch.py, main)

Remote calls are collected in an environment; each returns `Except`,
mirroring raise-or-return.  Completed remote mutations (label patches,
aborts, submissions) are recorded as an effect trace: effects executed
before a later exception stay in the trace — the source performs them
eagerly and never rolls them back. -/

inductive Effect where
  | patchBatchStatus (wf_id : String) (include_in_batch : Bool)
  | abortWf (wf_id : String)
  | submitWf (item_index : Nat)
deriving Repr, DecidableEq

structure CromwellEnv where
  batchConflicts : String → Except String (List String)
  wfStatus : String → Except String String
  patchLabels : String → Except String Unit
  abortCall : String → Except String Unit
  submitCall : Nat → Except String String

/-- The conflict loop of `submit_batch.main` (lines 219-236): for each
conflicting workflow, resolve the conflict, patch its batch status to
exclude when it may be overwritten, abort it when required, and conjoin
`can_submit_wf` with `can_overide_conflict_wf`. -/
def runConflictLoop (env : CromwellEnv) (batch_conflict_action : String) :
    List String → List Effect → Bool → List Effect × Except String Bool
  | [], effs, can_submit_wf => (effs, Except.ok can_submit_wf)
  | batch_conflict_wf :: rest, effs, can_submit_wf =>
    match env.wfStatus batch_conflict_wf with
    | Except.error e => (effs, Except.error e)
    | Except.ok status =>
      let r := resolve_batch_conflict status batch_conflict_action
      match (if r.1 then env.patchLabels batch_conflict_wf else Except.ok ()) with
      | Except.error e => (effs, Except.error e)
      | Except.ok _ =>
        let effs1 := effs ++ (if r.1 then [Effect.patchBatchStatus batch_conflict_wf false] else [])
        match (if r.2 then env.abortCall batch_conflict_wf else Except.ok ()) with
        | Except.error e => (effs1, Except.error e)
        | Except.ok _ =>
          let effs2 := effs1 ++ (if r.2 then [Effect.abortWf batch_conflict_wf] else [])
          runConflictLoop env batch_conflict_action rest effs2 (can_submit_wf && r.1)

def NOT_SUBMITTED_MSG : String :=
  "SupercededWF is either running/submitted or was successful."

/-- One iteration of the driver loop (the `try` block, lines 214-265):
discover conflicts, run the conflict loop, then submit if permitted.
Returns the effect trace together with either the exception or the
`(wf_id, superceded_wfs, info)` triple recorded into the job report. -/
def processItem (env : CromwellEnv) (batch_conflict_action : String)
    (item_index : Nat) (batch_sample_label : String) :
    List Effect × Except String (String × String × String) :=
  match env.batchConflicts batch_sample_label with
  | Except.error e => ([], Except.error e)
  | Except.ok batch_conflict_wfs =>
    match runConflictLoop env batch_conflict_action batch_conflict_wfs [] true with
    | (effs, Except.error e) => (effs, Except.error e)
    | (effs, Except.ok can_submit_wf) =>
      let superceded := String.intercalate ", " batch_conflict_wfs
      if can_submit_wf then
        match env.submitCall item_index with
        | Except.error e => (effs, Except.error e)
        | Except.ok wf_id =>
          (effs ++ [Effect.submitWf item_index], Except.ok (wf_id, superceded, ""))
      else
        (effs, Except.ok ("Not submitted", superceded, NOT_SUBMITTED_MSG))

/-- A row of the job report: the deep-copied label dict of the batch item
plus the three outcome fields, absent (`none`) until the item completes. -/
structure ReportRow where
  labels : List (String × String)
  wf_id : Option String
  superceded_wfs : Option String
  info : Option String
deriving Repr, DecidableEq

/-- The written submission report.  `output_job_report` reorders the
columns to `REPORT_COL_ORDER` (missing outcome columns are added as
null values — the `none` fields of the rows) and, on failure, appends a
`Failed` column.  The `fillna("SKIPPED AFTER FAILURE")` call in the
source discards its result, so no fill is applied. -/
structure JobReportFile where
  col_order : List String
  rows : List ReportRow
  failed_col : Option (List String)
deriving Repr, DecidableEq

def failedColumn (n failed_workflow_index : Nat) : List String :=
  (List.range n).map (fun j => if j == failed_workflow_index then "FAILED WORKFLOW" else "")

def output_job_report (job_report : List ReportRow)
    (failed_workflow_index : Option Nat) : JobReportFile :=
  { col_order := REPORT_COL_ORDER,
    rows := job_report,
    failed_col := failed_workflow_index.map (failedColumn job_report.length) }

/-- Result of a driver run: `ok` and `fatal` carry the report file that
was written before returning or re-raising; `uncaught` is an exception
raised outside the loop's `try` (no report written). -/
inductive MainResult where
  | ok (written : JobReportFile)
  | fatal (written : JobReportFile) (err : String)
  | uncaught (err : String)
deriving Repr, DecidableEq

/-- The driver loop (lines 205-273): on an item exception the report
built so far is written with the failing index marked, then the same
exception is re-raised (`MainResult.fatal`).  The `batch_sample_label`
dict access happens before the `try`, so a missing key there would
propagate without a report (`MainResult.uncaught`); label validation
rules that out. -/
def runItems (env : CromwellEnv) (batch_conflict_action : String) :
    List ReportRow → Nat → List (List (String × String)) → MainResult
  | job_report, _, [] => MainResult.ok (output_job_report job_report none)
  | job_report, i, wf_labels :: rest =>
    match lookupValue wf_labels CROMWELL_BATCH_SAMPLE_LABEL with
    | none => MainResult.uncaught "KeyError: cromwell-batch-sample-label"
    | some batch_sample_label =>
      match (processItem env batch_conflict_action i batch_sample_label).2 with
      | Except.error e => MainResult.fatal (output_job_report job_report (some i)) e
      | Except.ok (wf_id, superceded, msg) =>
        runItems env batch_conflict_action
          (job_report.set i
            { labels := wf_labels, wf_id := some wf_id,
              superceded_wfs := some superceded, info := some msg })
          (i + 1) rest

/-- `job_report = copy.deepcopy(batch_labels)` (line 200). -/
def initJobReport (batch_labels : List (List (String × String))) : List ReportRow :=
  batch_labels.map
    (fun l => { labels := l, wf_id := none, superceded_wfs := none, info := none })

/-- Pre-loop validation of every workflow label dict (lines 192-193). -/
def validateAllLabels : List (List (String × String)) → Except String Unit
  | [] => Except.ok ()
  | wf_labels :: rest =>
    match validate_wf_labels wf_labels with
    | Except.error e => Except.error e
    | Except.ok _ => validateAllLabels rest

def submit_batch_main (env : CromwellEnv) (batch_conflict_action : String)
    (batch_labels : List (List (String × String))) : MainResult :=
  match validateAllLabels batch_labels with
  | Except.error e => MainResult.uncaught e
  | Except.ok _ =>
    runItems env batch_conflict_action (initJobReport batch_labels) 0 batch_labels

/-- An environment whose reads and label mutations all succeed; the
submission call may still fail. -/
def mkEnv (conflictsOf : String → List String) (statusOf : String → String)
    (submitR : Nat → Except String String) : CromwellEnv :=
  { batchConflicts := fun bsl => Except.ok (conflictsOf bsl),
    wfStatus := fun wf => Except.ok (statusOf wf),
    patchLabels := fun _ => Except.ok (),
    abortCall := fun _ => Except.ok (),
    submitCall := submitR }

/-- Effect trace produced by the conflict loop under an environment whose
status reads, patches and aborts all succeed. -/
def conflictLoopEffects (statusOf : String → String) (batch_conflict_action : String) :
    List String → List Effect
  | [] => []
  | wf :: rest =>
    let r := resolve_batch_conflict (statusOf wf) batch_conflict_action
    ((if r.1 then [Effect.patchBatchStatus wf false] else []) ++
     (if r.2 then [Effect.abortWf wf] else [])) ++
    conflictLoopEffects statusOf batch_conflict_action rest

lemma mkEnv_batchConflicts (c : String → List String) (s : String → String)
    (r : Nat → Except String String) (b : String) :
    (mkEnv c s r).batchConflicts b = Except.ok (c b) := rfl

lemma mkEnv_wfStatus (c : String → List String) (s : String → String)
    (r : Nat → Except String String) (w : String) :
    (mkEnv c s r).wfStatus w = Except.ok (s w) := rfl

lemma mkEnv_patchLabels (c : String → List String) (s : String → String)
    (r : Nat → Except String String) (w : String) :
    (mkEnv c s r).patchLabels w = Except.ok () := rfl

lemma mkEnv_abortCall (c : String → List String) (s : String → String)
    (r : Nat → Except String String) (w : String) :
    (mkEnv c s r).abortCall w = Except.ok () := rfl

lemma mkEnv_submitCall (c : String → List String) (s : String → String)
    (r : Nat → Except String String) (i : Nat) :
    (mkEnv c s r).submitCall i = r i := rfl

lemma runConflictLoop_mkEnv (conflictsOf : String → List String)
    (statusOf : String → String) (submitR : Nat → Except String String)
    (action : String) :
    ∀ (wfs : List String) (effs : List Effect) (can : Bool),
      runConflictLoop (mkEnv conflictsOf statusOf submitR) action wfs effs can =
        (effs ++ conflictLoopEffects statusOf action wfs,
         Except.ok (can && wfs.all
           (fun wf => (resolve_batch_conflict (statusOf wf) action).1))) := by
  intro wfs
  induction wfs with
  | nil => intro effs can; simp [runConflictLoop, conflictLoopEffects]
  | cons wf rest ih =>
    intro effs can
    simp only [runConflictLoop, mkEnv_wfStatus, mkEnv_patchLabels, mkEnv_abortCall,
      ite_self]
    rw [ih]
    simp [conflictLoopEffects, List.append_assoc, List.all_cons, Bool.and_assoc]

lemma mem_conflictLoopEffects_patch (statusOf : String → String)
    (action wf : String) :
    ∀ wfs : List String,
      (Effect.patchBatchStatus wf false ∈ conflictLoopEffects statusOf action wfs ↔
        wf ∈ wfs ∧ (resolve_batch_conflict (statusOf wf) action).1 = true) := by
  intro wfs
  induction wfs with
  | nil => simp [conflictLoopEffects]
  | cons w rest ih =>
    simp only [conflictLoopEffects, List.mem_append, ih, List.mem_cons]
    by_cases hw : wf = w
    · subst hw
      cases h1 : (resolve_batch_conflict (statusOf wf) action).1 <;>
        cases h2 : (resolve_batch_conflict (statusOf wf) action).2 <;>
          simp [h1, h2]
    · cases h1 : (resolve_batch_conflict (statusOf w) action).1 <;>
        cases h2 : (resolve_batch_conflict (statusOf w) action).2 <;>
          simp [h1, h2, hw, Ne.symm hw]

lemma mem_conflictLoopEffects_abort (statusOf : String → String)
    (action wf : String) :
    ∀ wfs : List String,
      (Effect.abortWf wf ∈ conflictLoopEffects statusOf action wfs ↔
        wf ∈ wfs ∧ (resolve_batch_conflict (statusOf wf) action).2 = true) := by
  intro wfs
  induction wfs with
  | nil => simp [conflictLoopEffects]
  | cons w rest ih =>
    simp only [conflictLoopEffects, List.mem_append, ih, List.mem_cons]
    by_cases hw : wf = w
    · subst hw
      cases h1 : (resolve_batch_conflict (statusOf wf) action).1 <;>
        cases h2 : (resolve_batch_conflict (statusOf wf) action).2 <;>
          simp [h1, h2]
    · cases h1 : (resolve_batch_conflict (statusOf w) action).1 <;>
        cases h2 : (resolve_batch_conflict (statusOf w) action).2 <;>
          simp [h1, h2, hw, Ne.symm hw]

lemma processItem_mkEnv (conflictsOf : List String)
    (statusOf : String → String) (submitR : Nat → Except String String)
    (cf : String → List String) (action : String) (i : Nat) (bsl : String)
    (hcf : cf bsl = conflictsOf) :
    processItem (mkEnv cf statusOf submitR) action i bsl =
      (let effs := conflictLoopEffects statusOf action conflictsOf
       let can_submit := conflictsOf.all
         (fun wf => (resolve_batch_conflict (statusOf wf) action).1)
       let superceded := String.intercalate ", " conflictsOf
       if can_submit then
         match submitR i with
         | Except.error e => (effs, Except.error e)
         | Except.ok wf_id =>
           (effs ++ [Effect.submitWf i], Except.ok (wf_id, superceded, ""))
       else
         (effs, Except.ok ("Not submitted", superceded, NOT_SUBMITTED_MSG))) := by
  simp only [processItem, mkEnv_batchConflicts, mkEnv_submitCall, hcf]
  rw [runConflictLoop_mkEnv cf statusOf submitR action conflictsOf [] true]
  simp only [List.nil_append, Bool.true_and]

lemma submitWf_not_mem_conflictLoopEffects (statusOf : String → String)
    (action : String) (i : Nat) :
    ∀ wfs : List String,
      Effect.submitWf i ∉ conflictLoopEffects statusOf action wfs := by
  intro wfs
  induction wfs with
  | nil => simp [conflictLoopEffects]
  | cons w rest ih =>
    simp only [conflictLoopEffects, List.mem_append]
    cases h1 : (resolve_batch_conflict (statusOf w) action).1 <;>
      cases h2 : (resolve_batch_conflict (statusOf w) action).2 <;>
        simp [h1, h2, ih]

/-- C2: per batch item, the driver submits the new workflow exactly when
every prior conflicting job resolves to `can_overwrite = true`; it patches
the batch-status label of each permitted-to-overwrite prior job (and
aborts it when `must_abort` holds) regardless of whether the submission
call succeeds or the item is blocked by some other conflict — the patch
and abort effects stay in the trace, never rolled back; with zero prior
conflicts the item is submitted with no retirement side effects. -/
theorem submit_batch_conflict_resolution_effects
    (conflictsOf : String → List String) (statusOf : String → String)
    (submitR : Nat → Except String String) (submitIds : Nat → String)
    (action bsl wf : String) (i : Nat) :
    (Effect.submitWf i ∈
        (processItem (mkEnv conflictsOf statusOf (fun j => Except.ok (submitIds j)))
          action i bsl).1 ↔
      (conflictsOf bsl).all
        (fun w => (resolve_batch_conflict (statusOf w) action).1) = true) ∧
    (Effect.patchBatchStatus wf false ∈
        (processItem (mkEnv conflictsOf statusOf submitR) action i bsl).1 ↔
      (wf ∈ conflictsOf bsl ∧
        (resolve_batch_conflict (statusOf wf) action).1 = true)) ∧
    (Effect.abortWf wf ∈
        (processItem (mkEnv conflictsOf statusOf submitR) action i bsl).1 ↔
      (wf ∈ conflictsOf bsl ∧
        (resolve_batch_conflict (statusOf wf) action).2 = true)) ∧
    processItem (mkEnv (fun _ => []) statusOf (fun j => Except.ok (submitIds j)))
        action i bsl =
      ([Effect.submitWf i], Except.ok (submitIds i, "", "")) := by
  refine ⟨?_, ?_, ?_, ?_⟩
  · rw [processItem_mkEnv (conflictsOf bsl) statusOf
      (fun j => Except.ok (submitIds j)) conflictsOf action i bsl rfl]
    cases hall : (conflictsOf bsl).all
        (fun w => (resolve_batch_conflict (statusOf w) action).1) with
    | true => simp [hall]
    | false =>
      simp [hall, submitWf_not_mem_conflictLoopEffects statusOf action i (conflictsOf bsl)]
  · rw [processItem_mkEnv (conflictsOf bsl) statusOf submitR conflictsOf action i bsl rfl]
    cases hall : (conflictsOf bsl).all
        (fun w => (resolve_batch_conflict (statusOf w) action).1) with
    | true =>
      cases hs : submitR i with
      | error e => simp [hall, hs, mem_conflictLoopEffects_patch]
      | ok wid => simp [hall, hs, mem_conflictLoopEffects_patch]
    | false => simp [hall, mem_conflictLoopEffects_patch]
  · rw [processItem_mkEnv (conflictsOf bsl) statusOf submitR conflictsOf action i bsl rfl]
    cases hall : (conflictsOf bsl).all
        (fun w => (resolve_batch_conflict (statusOf w) action).1) with
    | true =>
      cases hs : submitR i with
      | error e => simp [hall, hs, mem_conflictLoopEffects_abort]
      | ok wid => simp [hall, hs, mem_conflictLoopEffects_abort]
    | false => simp [hall, mem_conflictLoopEffects_abort]
  · rw [processItem_mkEnv [] statusOf
      (fun j => Except.ok (submitIds j)) (fun _ => []) action i bsl rfl]
    simp [conflictLoopEffects, String.intercalate]

/-- Batch item `i` completes without an exception: the label dict carries
the batch-sample key and `processItem` returns an outcome triple. -/
def itemSucceeds (env : CromwellEnv) (action : String) (i : Nat)
    (wf_labels : List (String × String)) : Prop :=
  ∃ bsl out, lookupValue wf_labels CROMWELL_BATCH_SAMPLE_LABEL = some bsl ∧
    (processItem env action i bsl).2 = Except.ok out

lemma runItems_processed_prefix (env : CromwellEnv) (action : String) :
    ∀ (pre : List (List (String × String)))
      (rest : List (List (String × String)))
      (report : List ReportRow) (i : Nat),
      (∀ j (h : j < pre.length), itemSucceeds env action (i + j) (pre.get ⟨j, h⟩)) →
      ∃ report',
        runItems env action report i (pre ++ rest) =
          runItems env action report' (i + pre.length) rest ∧
        report'.length = report.length ∧
        ∀ k, (k < i ∨ i + pre.length ≤ k) → report'.get? k = report.get? k := by
  intro pre
  induction pre with
  | nil =>
    intro rest report i _
    exact ⟨report, by simp, rfl, fun k _ => rfl⟩
  | cons l pre' ih =>
    intro rest report i hsucc
    have h0 := hsucc 0 (by simp)
    simp only [List.get] at h0
    obtain ⟨bsl, out, hlook, hproc⟩ := h0
    rw [Nat.add_zero] at hproc
    obtain ⟨wid, sup, msg⟩ := out
    have step :
        runItems env action report i ((l :: pre') ++ rest) =
          runItems env action
            (report.set i { labels := l, wf_id := some wid,
                            superceded_wfs := some sup, info := some msg })
            (i + 1) (pre' ++ rest) := by
      simp only [List.cons_append, runItems, hlook, hproc, List.append_eq]
    have hsucc' : ∀ j (h : j < pre'.length),
        itemSucceeds env action ((i + 1) + j) (pre'.get ⟨j, h⟩) := by
      intro j h
      have := hsucc (j + 1) (by simpa using Nat.succ_lt_succ h)
      have harith : i + (j + 1) = (i + 1) + j := by omega
      rw [harith] at this
      exact this
    obtain ⟨report'', heq, hlen, hpres⟩ :=
      ih rest
        (report.set i { labels := l, wf_id := some wid,
                        superceded_wfs := some sup, info := some msg })
        (i + 1) hsucc' 
    refine ⟨report'', ?_, ?_, ?_⟩
    · rw [step, heq]
      congr 1
      simp [List.length_cons]
      omega
    · rw [hlen, List.length_set]
    · intro k hk
      simp only [List.length_cons] at hk
      have hki : i ≠ k := by omega
      have hk' : k < i + 1 ∨ (i + 1) + pre'.length ≤ k := by omega
      rw [hpres k hk', List.get?_set_ne _ report hki]

lemma failedColumn_at_failure (n i : Nat) (h : i < n) :
    (failedColumn n i).get? i = some "FAILED WORKFLOW" := by
  simp [failedColumn, List.getElem?_map, List.getElem?_range h]

lemma failedColumn_elsewhere (n i j : Nat) (h : j < n) (hne : j ≠ i) :
    (failedColumn n i).get? j = some "" := by
  simp [failedColumn, List.getElem?_map, List.getElem?_range h, hne]

lemma initJobReport_length (batch_labels : List (List (String × String))) :
    (initJobReport batch_labels).length = batch_labels.length := by
  simp [initJobReport]

/-- C3: when processing batch item `i` raises, the driver writes the
report built so far with a dedicated `Failed` column holding
"FAILED WORKFLOW" exactly at row `i` (and the empty string everywhere
else), and only then re-raises the very same exception
(`MainResult.fatal` carries the written file together with `e`); the
exception is propagated, not swallowed, by everything below the loop
boundary. -/
theorem submit_batch_report_then_reraise
    (env : CromwellEnv) (action : String)
    (pre : List (List (String × String))) (wf_labels : List (String × String))
    (post : List (List (String × String))) (bsl e : String)
    (hval : validateAllLabels (pre ++ wf_labels :: post) = Except.ok ())
    (hpre : ∀ j (h : j < pre.length), itemSucceeds env action j (pre.get ⟨j, h⟩))
    (hlook : lookupValue wf_labels CROMWELL_BATCH_SAMPLE_LABEL = some bsl)
    (hfail : (processItem env action pre.length bsl).2 = Except.error e) :
    ∃ rows : List ReportRow,
      submit_batch_main env action (pre ++ wf_labels :: post) =
        MainResult.fatal (output_job_report rows (some pre.length)) e ∧
      rows.length = (pre ++ wf_labels :: post).length ∧
      (output_job_report rows (some pre.length)).failed_col =
        some (failedColumn (pre ++ wf_labels :: post).length pre.length) ∧
      (failedColumn (pre ++ wf_labels :: post).length pre.length).get? pre.length =
        some "FAILED WORKFLOW" ∧
      (∀ j, j < (pre ++ wf_labels :: post).length → j ≠ pre.length →
        (failedColumn (pre ++ wf_labels :: post).length pre.length).get? j = some "") := by
  have hlen_total : (pre ++ wf_labels :: post).length = pre.length + (post.length + 1) := by
    simp
  have hi_lt : pre.length < (pre ++ wf_labels :: post).length := by omega
  obtain ⟨report', heq, hlen, _⟩ :=
    runItems_processed_prefix env action pre (wf_labels :: post)
      (initJobReport (pre ++ wf_labels :: post)) 0
      (fun j h => by simpa using hpre j h)
  have hmain :
      submit_batch_main env action (pre ++ wf_labels :: post) =
        MainResult.fatal (output_job_report report' (some pre.length)) e := by
    unfold submit_batch_main
    rw [hval]
    rw [heq]
    simp only [Nat.zero_add, runItems, hlook, hfail]
  have hrows_len : report'.length = (pre ++ wf_labels :: post).length := by
    rw [hlen, initJobReport_length]
  refine ⟨report', hmain, hrows_len, ?_, ?_, ?_⟩
  · simp [output_job_report, hrows_len]
  · exact failedColumn_at_failure _ _ hi_lt
  · intro j hj hne
    exact failedColumn_elsewhere _ _ _ hj hne

/-- Environment with no prior conflicts in which every submission call
fails with a connection error. -/
def noConflictFailSubmitEnv : CromwellEnv :=
  mkEnv (fun _ => []) (fun _ => CROMWELL_SUCCESS_STATUS)
    (fun _ => Except.error "ConnectionError")

/-- C3 witness: a two-item batch whose first submission call raises. -/
theorem submit_batch_report_then_reraise_witness :
    ∃ rows : List ReportRow,
      submit_batch_main noConflictFailSubmitEnv "rerun-failed"
          [fullLabelSet, fullLabelSet] =
        MainResult.fatal (output_job_report rows (some 0)) "ConnectionError" ∧
      rows.length = 2 ∧
      (output_job_report rows (some 0)).failed_col = some (failedColumn 2 0) ∧
      (failedColumn 2 0).get? 0 = some "FAILED WORKFLOW" ∧
      (∀ j, j < 2 → j ≠ 0 → (failedColumn 2 0).get? j = some "") := by
  have h := submit_batch_report_then_reraise noConflictFailSubmitEnv "rerun-failed"
    [] fullLabelSet [fullLabelSet] "B1_S1" "ConnectionError"
    (by rfl) (fun j h => absurd h (Nat.not_lt_zero j)) (by rfl) (by rfl)
  simpa using h

lemma initJobReport_get? (batch_labels : List (List (String × String))) (j : Nat) :
    (initJobReport batch_labels).get? j =
      (batch_labels.get? j).map
        (fun l => { labels := l, wf_id := none, superceded_wfs := none,
                    info := none : ReportRow }) := by
  simp [initJobReport, List.get?_eq_getElem?, List.getElem?_map]

/-- C4 counterexample: the claim is false on the code.  In a two-item
batch whose first item raises, the written report still contains a row
for the never-reached second item (with absent outcome fields) instead of
omitting it: the report has two rows although only one item was reached. -/
theorem submit_batch_unreached_row_counterexample :
    submit_batch_main noConflictFailSubmitEnv "rerun-failed"
        [fullLabelSet, fullLabelSet] =
      MainResult.fatal
        { col_order := REPORT_COL_ORDER,
          rows :=
            [{ labels := fullLabelSet, wf_id := none,
               superceded_wfs := none, info := none },
             { labels := fullLabelSet, wf_id := none,
               superceded_wfs := none, info := none }],
          failed_col := some ["FAILED WORKFLOW", ""] } "ConnectionError" := by
  rfl

/-- C4 amended: rows for items not yet reached when a fatal error occurs
are PRESENT in the written report, carrying their label columns with
absent (null) workflow-id, superseded and info fields (the source's
`fillna("SKIPPED AFTER FAILURE")` discards its result, so nothing is
filled in); rows for items explicitly skipped by conflict policy carry
the sentinel "Not submitted" together with the fixed reason message; and
a skip is recorded in the row after which processing continues with the
next item. -/
theorem submit_batch_skip_and_unreached_rows :
    (∀ (env : CromwellEnv) (action : String)
       (pre : List (List (String × String))) (wf_labels : List (String × String))
       (post : List (List (String × String))) (bsl e : String),
       validateAllLabels (pre ++ wf_labels :: post) = Except.ok () →
       (∀ j (h : j < pre.length), itemSucceeds env action j (pre.get ⟨j, h⟩)) →
       lookupValue wf_labels CROMWELL_BATCH_SAMPLE_LABEL = some bsl →
       (processItem env action pre.length bsl).2 = Except.error e →
       ∃ rows : List ReportRow,
         submit_batch_main env action (pre ++ wf_labels :: post) =
           MainResult.fatal (output_job_report rows (some pre.length)) e ∧
         rows.length = (pre ++ wf_labels :: post).length ∧
         (∀ j, pre.length ≤ j →
           rows.get? j =
             ((pre ++ wf_labels :: post).get? j).map
               (fun l => { labels := l, wf_id := none, superceded_wfs := none,
                           info := none : ReportRow }))) ∧
    (∀ (conflictsOf : String → List String) (statusOf : String → String)
       (submitR : Nat → Except String String) (action bsl : String) (i : Nat),
       (conflictsOf bsl).all
           (fun w => (resolve_batch_conflict (statusOf w) action).1) = false →
       (processItem (mkEnv conflictsOf statusOf submitR) action i bsl).2 =
         Except.ok ("Not submitted", String.intercalate ", " (conflictsOf bsl),
           NOT_SUBMITTED_MSG)) ∧
    (∀ (env : CromwellEnv) (action : String) (report : List ReportRow) (i : Nat)
       (wf_labels : List (String × String))
       (rest : List (List (String × String))) (bsl sup : String),
       lookupValue wf_labels CROMWELL_BATCH_SAMPLE_LABEL = some bsl →
       (processItem env action i bsl).2 =
         Except.ok ("Not submitted", sup, NOT_SUBMITTED_MSG) →
       runItems env action report i (wf_labels :: rest) =
         runItems env action
           (report.set i
             { labels := wf_labels, wf_id := some "Not submitted",
               superceded_wfs := some sup, info := some NOT_SUBMITTED_MSG })
           (i + 1) rest) := by
  refine ⟨?_, ?_, ?_⟩
  · intro env action pre wf_labels post bsl e hval hpre hlook hfail
    obtain ⟨report', heq, hlen, hpres⟩ :=
      runItems_processed_prefix env action pre (wf_labels :: post)
        (initJobReport (pre ++ wf_labels :: post)) 0
        (fun j h => by simpa using hpre j h)
    have hmain :
        submit_batch_main env action (pre ++ wf_labels :: post) =
          MainResult.fatal (output_job_report report' (some pre.length)) e := by
      unfold submit_batch_main
      rw [hval]
      rw [heq]
      simp only [Nat.zero_add, runItems, hlook, hfail]
    refine ⟨report', hmain, by rw [hlen, initJobReport_length], ?_⟩
    intro j hj
    rw [hpres j (Or.inr (by omega)), initJobReport_get?]
  · intro conflictsOf statusOf submitR action bsl i hall
    rw [processItem_mkEnv (conflictsOf bsl) statusOf submitR conflictsOf action i bsl rfl]
    simp [hall]
  · intro env action report i wf_labels rest bsl sup hlook hproc
    simp only [runItems, hlook, hproc]

/-- Environment with one prior succeeded conflict, used as witness input. -/
def oneConflictEnv : CromwellEnv :=
  mkEnv (fun _ => ["wfX"]) (fun _ => CROMWELL_SUCCESS_STATUS)
    (fun j => Except.ok ("new-wf-" ++ toString j))

/-- C4 witness: the amended statement applied to concrete batches — the
fatal run keeps the unreached row with null outcome fields, a blocked
item yields the "Not submitted" outcome, and the skip recursion step. -/
theorem submit_batch_skip_and_unreached_rows_witness :
    (∃ rows : List ReportRow,
      submit_batch_main noConflictFailSubmitEnv "rerun-failed"
          [fullLabelSet, fullLabelSet] =
        MainResult.fatal (output_job_report rows (some 0)) "ConnectionError" ∧
      rows.length = 2 ∧
      (∀ j, 0 ≤ j →
        rows.get? j =
          ([fullLabelSet, fullLabelSet].get? j).map
            (fun l => { labels := l, wf_id := none, superceded_wfs := none,
                        info := none : ReportRow }))) ∧
    (processItem oneConflictEnv "rerun-failed" 0 "B1_S1").2 =
      Except.ok ("Not submitted", "wfX", NOT_SUBMITTED_MSG) ∧
    runItems oneConflictEnv "rerun-failed" (initJobReport [fullLabelSet]) 0
        [fullLabelSet] =
      runItems oneConflictEnv "rerun-failed"
        ((initJobReport [fullLabelSet]).set 0
          { labels := fullLabelSet, wf_id := some "Not submitted",
            superceded_wfs := some "wfX", info := some NOT_SUBMITTED_MSG })
        1 [] := by
  have h := submit_batch_skip_and_unreached_rows
  have h2 := h.2.1 (fun _ => ["wfX"]) (fun _ => CROMWELL_SUCCESS_STATUS)
    (fun j => Except.ok ("new-wf-" ++ toString j)) "rerun-failed" "B1_S1" 0 (by decide)
  have hnorm : String.intercalate ", " ["wfX"] = "wfX" := rfl
  rw [hnorm] at h2
  refine ⟨?_, h2, ?_⟩
  · have h1 := h.1 noConflictFailSubmitEnv "rerun-failed" [] fullLabelSet
      [fullLabelSet] "B1_S1" "ConnectionError"
      (by rfl) (fun j hj => absurd hj (Nat.not_lt_zero j)) (by rfl) (by rfl)
    simpa using h1
  · exact h.2.2 oneConflictEnv "rerun-failed" (initJobReport [fullLabelSet]) 0
      fullLabelSet [] "B1_S1" "wfX" (by rfl) h2

def batchConflictFilter (batch_sample_label : String) : List (String × String) :=
  [(CROMWELL_BATCH_SAMPLE_LABEL, batch_sample_label),
   (CROMWELL_BATCH_STATUS_FIELD, CROMWELL_BATCH_STATUS_INCLUDE_FLAG)]

lemma mem_get_batch_conflicts (jobs : List RemoteJob) (bsl x : String) :
    x ∈ get_batch_conflicts jobs bsl ↔
      ∃ job ∈ jobs,
        matchesLabelFilter (batchConflictFilter bsl) job = true ∧
        job.parentWorkflowId = none ∧ job.id = x := by
  simp only [get_batch_conflicts, batchConflictFilter, query_workflows, runLabelQuery,
    List.mem_filterMap, List.mem_map, List.mem_filter]
  constructor
  · rintro ⟨wfres, ⟨job, ⟨hjmem, hmatch⟩, rfl⟩, hf⟩
    cases hpar : job.parentWorkflowId with
    | none =>
      refine ⟨job, hjmem, hmatch, hpar, ?_⟩
      simpa [hpar] using hf
    | some p => simp [hpar] at hf
  · rintro ⟨job, hjmem, hmatch, hpar, rfl⟩
    exact ⟨{ id := job.id, parentWorkflowId := job.parentWorkflowId },
      ⟨job, ⟨hjmem, hmatch⟩, rfl⟩, by simp [hpar]⟩

lemma processItem_mem_patch_iff (conflictsOf : String → List String)
    (statusOf : String → String) (submitR : Nat → Except String String)
    (action bsl wf : String) (i : Nat) :
    Effect.patchBatchStatus wf false ∈
        (processItem (mkEnv conflictsOf statusOf submitR) action i bsl).1 ↔
      (wf ∈ conflictsOf bsl ∧
        (resolve_batch_conflict (statusOf wf) action).1 = true) := by
  rw [processItem_mkEnv (conflictsOf bsl) statusOf submitR conflictsOf action i bsl rfl]
  cases hall : (conflictsOf bsl).all
      (fun w => (resolve_batch_conflict (statusOf w) action).1) with
  | true =>
    cases hs : submitR i with
    | error e => simp [hall, hs, mem_conflictLoopEffects_patch]
    | ok wid => simp [hall, hs, mem_conflictLoopEffects_patch]
  | false => simp [hall, mem_conflictLoopEffects_patch]

lemma processItem_mem_abort_iff (conflictsOf : String → List String)
    (statusOf : String → String) (submitR : Nat → Except String String)
    (action bsl wf : String) (i : Nat) :
    Effect.abortWf wf ∈
        (processItem (mkEnv conflictsOf statusOf submitR) action i bsl).1 ↔
      (wf ∈ conflictsOf bsl ∧
        (resolve_batch_conflict (statusOf wf) action).2 = true) := by
  rw [processItem_mkEnv (conflictsOf bsl) statusOf submitR conflictsOf action i bsl rfl]
  cases hall : (conflictsOf bsl).all
      (fun w => (resolve_batch_conflict (statusOf w) action).1) with
  | true =>
    cases hs : submitR i with
    | error e => simp [hall, hs, mem_conflictLoopEffects_abort]
    | ok wid => simp [hall, hs, mem_conflictLoopEffects_abort]
  | false => simp [hall, mem_conflictLoopEffects_abort]

/-- C10: conflict discovery queries by `batch_sample_label` and
`batch_status = include`, so a job whose batch status label is `exclude`
is never reported as a conflict, and the driver's conflict loop (whose
patch and abort targets are exactly the reported conflicts) never patches
or aborts it again. -/
theorem excluded_jobs_never_retired_again
    (jobs : List RemoteJob) (statusOf : String → String)
    (submitR : Nat → Except String String) (action bsl : String) (i : Nat)
    (job : RemoteJob)
    (hnodup : (jobs.map RemoteJob.id).Nodup)
    (hmem : job ∈ jobs)
    (hexc : lookupValue job.labels CROMWELL_BATCH_STATUS_FIELD =
      some CROMWELL_BATCH_STATUS_EXCLUDE_FLAG) :
    job.id ∉ get_batch_conflicts jobs bsl ∧
    Effect.patchBatchStatus job.id false ∉
      (processItem (mkEnv (get_batch_conflicts jobs) statusOf submitR)
        action i bsl).1 ∧
    Effect.abortWf job.id ∉
      (processItem (mkEnv (get_batch_conflicts jobs) statusOf submitR)
        action i bsl).1 := by
  have hnot : job.id ∉ get_batch_conflicts jobs bsl := by
    rw [mem_get_batch_conflicts]
    rintro ⟨job', hmem', hmatch, hpar, hid⟩
    have hjj : job' = job :=
      List.inj_on_of_nodup_map hnodup hmem' hmem hid
    subst hjj
    simp only [matchesLabelFilter, batchConflictFilter, List.all_cons, List.all_nil,
      Bool.and_true, Bool.and_eq_true, beq_iff_eq] at hmatch
    rw [hexc] at hmatch
    exact absurd (Option.some_injective _ hmatch.2) (by decide)
  refine ⟨hnot, ?_, ?_⟩
  · intro hin
    exact hnot ((processItem_mem_patch_iff (get_batch_conflicts jobs) statusOf submitR
      action bsl job.id i).mp hin).1
  · intro hin
    exact hnot ((processItem_mem_abort_iff (get_batch_conflicts jobs) statusOf submitR
      action bsl job.id i).mp hin).1

/-- A retired (excluded) prior job and an active (included) one sharing
the same batch-sample key. -/
def excludedJob : RemoteJob :=
  { id := "wf-old",
    labels := [(CROMWELL_BATCH_SAMPLE_LABEL, "B1_S1"),
               (CROMWELL_BATCH_STATUS_FIELD, "exclude")],
    parentWorkflowId := none }

def includedJob : RemoteJob :=
  { id := "wf-new",
    labels := [(CROMWELL_BATCH_SAMPLE_LABEL, "B1_S1"),
               (CROMWELL_BATCH_STATUS_FIELD, "include")],
    parentWorkflowId := none }

/-- C10 witness: on a concrete server holding one excluded and one
included job with the same batch-sample key, the excluded job is neither
reported as a conflict nor patched nor aborted. -/
theorem excluded_jobs_never_retired_again_witness :
    excludedJob.id ∉ get_batch_conflicts [excludedJob, includedJob] "B1_S1" ∧
    Effect.patchBatchStatus excludedJob.id false ∉
      (processItem
        (mkEnv (get_batch_conflicts [excludedJob, includedJob])
          (fun _ => CROMWELL_RUNNING_STATUS)
          (fun j => Except.ok ("new-wf-" ++ toString j)))
        "rerun-all" 0 "B1_S1").1 ∧
    Effect.abortWf excludedJob.id ∉
      (processItem
        (mkEnv (get_batch_conflicts [excludedJob, includedJob])
          (fun _ => CROMWELL_RUNNING_STATUS)
          (fun j => Except.ok ("new-wf-" ++ toString j)))
        "rerun-all" 0 "B1_S1").1 :=
  excluded_jobs_never_retired_again [excludedJob, includedJob]
    (fun _ => CROMWELL_RUNNING_STATUS)
    (fun j => Except.ok ("new-wf-" ++ toString j)) "rerun-all" "B1_S1" 0
    excludedJob (by decide) (by decide) (by decide)

/-! ### Batch status aggregator (get_batch_status.py; cromwell.py get_wf_summary) -/

/-- Modelled from the spec: `get_batch_status.main` iterates
`const.WF_STATUS_VALS`, whose declaration is not among the sources
available here (only this caller is); the spec fixes the job status set
to `{Submitted, Running, Aborting, Aborted, Failed, Succeeded}`. -/
def WF_STATUS_VALS : List String :=
  [CROMWELL_SUBMITTED_STATUS,
   CROMWELL_RUNNING_STATUS,
   CROMWELL_ABORTING_STATUS,
   CROMWELL_ABORTED_STATUS,
   CROMWELL_FAILED_STATUS,
   CROMWELL_SUCCESS_STATUS]

/-- The workflow metadata relevant to a summary: the scalar JSON entries
and the contents of the `labels` object (held apart, as `get_wf_summary`
pops it from the dict). -/
structure WfMetadata where
  fields : List (String × String)
  labels : List (String × String)
deriving Repr, DecidableEq

def SUMMARY_INCLUDE_KEYS : List String :=
  [CROMWELL_END_FIELD,
   CROMWELL_START_FIELD,
   CROMWELL_SUBMIT_FIELD,
   CROMWELL_STATUS_FIELD,
   CROMWELL_LABEL_FIELD,
   CROMWELL_WF_NAME_FIELD]

def SUMMARY_VALID_LABELS : List String :=
  REQUIRED_WF_LABELS ++ [CROMWELL_WF_ID_FIELD]

/-- cromwell.py `get_wf_summary`: keep only the include-keys among the
scalar metadata entries (the popped `labels` entry is the `labels`
component), then append the label entries whose key is an expected batch
label, stripping the "cromwell-" prefix from the workflow-id value. -/
def get_wf_summary (metadata : WfMetadata) : List (String × String) :=
  (metadata.fields.filter
    (fun kv => SUMMARY_INCLUDE_KEYS.contains kv.1 && kv.1 != CROMWELL_LABEL_FIELD)) ++
  (metadata.labels.filter (fun kv => SUMMARY_VALID_LABELS.contains kv.1)).map
    (fun kv =>
      if kv.1 == CROMWELL_WF_ID_FIELD then
        (kv.1, kv.2.replace "cromwell-" "")
      else kv)

def get_status_count (report : List (List (String × String))) (status : String) : Nat :=
  (report.filter
    (fun row => lookupValue row CROMWELL_STATUS_FIELD == some status)).length

/-- `c in report_df.columns` for a DataFrame built from a list of row
dicts: the column exists when some row dict carries the key. -/
def dfHasColumn (rows : List (List (String × String))) (c : String) : Bool :=
  rows.any (fun row => hasKey row c)

def sampleKey (row : List (String × String)) : String :=
  (lookupValue row CROMWELL_SAMPLE_LABEL).getD ""

def insertBySample (row : List (String × String)) :
    List (List (String × String)) → List (List (String × String))
  | [] => [row]
  | r :: rs =>
    if sampleKey row ≤ sampleKey r then row :: r :: rs
    else r :: insertBySample row rs

/-- `report_df.sort_values(by=sample_label)`. -/
def sortBySample : List (List (String × String)) → List (List (String × String))
  | [] => []
  | r :: rs => insertBySample r (sortBySample rs)

/-- The written status report: `cols` is the schema (`STATUS_COL_ORDER`
restricted to columns populated by at least one summary — only cells of
these columns are written), `rows` the per-job summaries after the
batch-status filter and the sample-name sort, `counts` the per-status
tallies logged for the fixed status set. -/
structure StatusReportFile where
  cols : List String
  rows : List (List (String × String))
  counts : List (String × Nat)
deriving Repr, DecidableEq

/-- get_batch_status.py `main`, from the per-job summaries onwards. -/
def get_batch_status_report (wf_summaries : List (List (String × String)))
    (show_excluded : Bool) : StatusReportFile :=
  let cols := STATUS_COL_ORDER.filter (fun c => dfHasColumn wf_summaries c)
  let report_rows :=
    if show_excluded then wf_summaries
    else wf_summaries.filter
      (fun row => lookupValue row CROMWELL_BATCH_STATUS_FIELD ==
        some CROMWELL_BATCH_STATUS_INCLUDE_FLAG)
  { cols := cols,
    rows := sortBySample report_rows,
    counts := WF_STATUS_VALS.map (fun s => (s, get_status_count report_rows s)) }

lemma hasKey_iff (d : List (String × String)) (k : String) :
    hasKey d k = true ↔ ∃ kv ∈ d, kv.1 = k := by
  simp [hasKey, lookupValue, List.find?_isSome]

lemma summary_include_key_mem_status_cols (k : String)
    (h1 : k ∈ SUMMARY_INCLUDE_KEYS) (h2 : k ≠ CROMWELL_LABEL_FIELD) :
    k ∈ STATUS_COL_ORDER := by
  fin_cases h1 <;> simp_all [STATUS_COL_ORDER, CROMWELL_LABEL_FIELD,
    CROMWELL_END_FIELD, CROMWELL_START_FIELD, CROMWELL_SUBMIT_FIELD,
    CROMWELL_STATUS_FIELD, CROMWELL_WF_NAME_FIELD, CROMWELL_WF_ID_FIELD,
    CROMWELL_BATCH_STATUS_FIELD, CROMWELL_SAMPLE_LABEL, CROMWELL_UNIQUE_LABEL,
    CROMWELL_BATCH_LABEL, CROMWELL_BATCH_SAMPLE_LABEL]

lemma summary_valid_label_mem_status_cols (k : String)
    (h1 : k ∈ SUMMARY_VALID_LABELS) : k ∈ STATUS_COL_ORDER := by
  fin_cases h1 <;> simp [STATUS_COL_ORDER, CROMWELL_WF_ID_FIELD,
    CROMWELL_BATCH_STATUS_FIELD, CROMWELL_SAMPLE_LABEL, CROMWELL_UNIQUE_LABEL,
    CROMWELL_BATCH_LABEL, CROMWELL_BATCH_SAMPLE_LABEL]

/-- Every key of a workflow summary is one of the standard status-report
columns. -/
lemma get_wf_summary_keys_sub (metadata : WfMetadata) (kv : String × String)
    (hkv : kv ∈ get_wf_summary metadata) : kv.1 ∈ STATUS_COL_ORDER := by
  rcases List.mem_append.mp hkv with h | h
  · obtain ⟨hmem, hcond⟩ := List.mem_filter.mp h
    have hc : kv.1 ∈ SUMMARY_INCLUDE_KEYS ∧ ¬(kv.1 = CROMWELL_LABEL_FIELD) := by
      simpa using hcond
    exact summary_include_key_mem_status_cols kv.1 hc.1 hc.2
  · obtain ⟨kv0, hkv0, heq⟩ := List.mem_map.mp h
    obtain ⟨hmem0, hcond0⟩ := List.mem_filter.mp hkv0
    have hk0 : kv0.1 ∈ SUMMARY_VALID_LABELS := by simpa using hcond0
    have hfst : kv.1 = kv0.1 := by
      by_cases hid : kv0.1 == CROMWELL_WF_ID_FIELD <;> simp [hid] at heq <;>
        rw [← heq]
    rw [hfst]
    exact summary_valid_label_mem_status_cols kv0.1 hk0

/-- C6: the aggregator tabulates, for every status in the fixed status
set, the number of reported jobs whose summary carries that status (under
the active-batch filter unless excluded jobs are shown), and the emitted
file's schema is `STATUS_COL_ORDER` restricted to the populated columns. -/
theorem get_batch_status_tabulates_all_statuses
    (wf_summaries : List (List (String × String))) (show_excluded : Bool) :
    (get_batch_status_report wf_summaries show_excluded).counts =
      WF_STATUS_VALS.map (fun s => (s,
        (wf_summaries.filter (fun row =>
          (show_excluded ||
            (lookupValue row CROMWELL_BATCH_STATUS_FIELD ==
              some CROMWELL_BATCH_STATUS_INCLUDE_FLAG)) &&
          (lookupValue row CROMWELL_STATUS_FIELD == some s))).length)) ∧
    (get_batch_status_report wf_summaries show_excluded).counts.map Prod.fst =
      WF_STATUS_VALS ∧
    (get_batch_status_report wf_summaries show_excluded).cols =
      STATUS_COL_ORDER.filter
        (fun c => wf_summaries.any (fun row => hasKey row c)) := by
  refine ⟨?_, ?_, ?_⟩
  · cases show_excluded with
    | true => simp [get_batch_status_report, get_status_count]
    | false =>
      simp only [get_batch_status_report, get_status_count, Bool.false_or,
        Bool.false_eq_true, if_false, List.filter_filter]
      refine List.map_congr_left ?_
      intro s _
      refine congrArg _ (congrArg _ (List.filter_congr ?_))
      intro row _
      rw [Bool.and_comm]
  · cases show_excluded with
    | true =>
      simp only [get_batch_status_report, List.map_map]
      exact List.map_id'' (fun x => rfl) WF_STATUS_VALS
    | false =>
      simp only [get_batch_status_report, List.map_map]
      exact List.map_id'' (fun x => rfl) WF_STATUS_VALS
  · simp [get_batch_status_report, dfHasColumn]

/-- C7: a column appears in the status report exactly when at least one
job summary populates that field; in particular a batch where no job has
an `end` timestamp simply lacks the `end` column (the pipeline is total —
no failure). -/
theorem status_report_columns_data_driven
    (metadatas : List WfMetadata) (show_excluded : Bool) (c : String) :
    c ∈ (get_batch_status_report (metadatas.map get_wf_summary)
          show_excluded).cols ↔
      ∃ md ∈ metadatas, hasKey (get_wf_summary md) c = true := by
  have hcols : (get_batch_status_report (metadatas.map get_wf_summary)
      show_excluded).cols =
      STATUS_COL_ORDER.filter
        (fun col => dfHasColumn (metadatas.map get_wf_summary) col) := by
    simp [get_batch_status_report]
  rw [hcols, List.mem_filter]
  constructor
  · rintro ⟨-, hany⟩
    simp only [dfHasColumn, List.any_eq_true, List.mem_map] at hany
    obtain ⟨row, ⟨md, hmd, rfl⟩, hk⟩ := hany
    exact ⟨md, hmd, hk⟩
  · rintro ⟨md, hmd, hk⟩
    obtain ⟨kv, hkv, hfst⟩ := (hasKey_iff _ _).mp hk
    refine ⟨?_, ?_⟩
    · rw [← hfst]
      exact get_wf_summary_keys_sub md kv hkv
    · simp only [dfHasColumn, List.any_eq_true, List.mem_map]
      exact ⟨get_wf_summary md, ⟨md, hmd, rfl⟩, hk⟩

/-- C8 witness: the characterization applied to a concrete invalid batch
name, which the CLI type-check rejects. -/
theorem is_valid_label_characterization_witness :
    batch_type_arg "bad name!" = Except.error CROMWELL_LABEL_ARG_ERR ∧
    lookupValue (get_wf_labels "S1" "B1" "wf" "abc1234") CROMWELL_SAMPLE_LABEL =
      some "S1" :=
  ⟨(is_valid_label_characterization "bad name!" "S1" "B1" "wf" "abc1234").2.2.1
      (by decide),
   (is_valid_label_characterization "bad name!" "S1" "B1" "wf" "abc1234").2.2.2⟩
